import Mathlib

/-!
Verification of the `opencode-damage-control` policy-matching engine.

The engine (in `src/matchers/`) decides whether a shell command or a file
path must be blocked, given a configuration made of four policy tiers:
explicit command regexes, zero-access paths, read-only paths and
no-delete paths.  The TypeScript source relies on JavaScript regular
expressions (`new RegExp`, `.test`); this development embeds a small
executable regex engine covering the constructs the engine uses
(literals, escapes, character classes, `*`/`+`/`?` quantifiers, groups,
lookahead, anchors, word boundaries, case-insensitive flag), with
compilation failure modelled as `Option.none`, mirroring the source's
`try { new RegExp(...) } catch { ... }` structure.
-/

namespace DamageControl

/-! ## Basic character and string utilities -/

/-- ASCII lower-casing, as `String.prototype.toLowerCase` behaves on ASCII. -/
def lcChar (c : Char) : Char :=
  if 'A' ≤ c && c ≤ 'Z' then Char.ofNat (c.toNat + 32) else c

def lcString (s : String) : String := String.mk (s.data.map lcChar)

/-- Character equality, optionally case-insensitive (JS `i` flag). -/
def charEqCi (ci : Bool) (a b : Char) : Bool :=
  a == b || (ci && lcChar a == lcChar b)

def listPrefixOf : List Char → List Char → Bool
  | [], _ => true
  | _ :: _, [] => false
  | a :: as, b :: bs => a == b && listPrefixOf as bs

/-- `String.prototype.startsWith`. -/
def strStartsWith (s p : String) : Bool := listPrefixOf p.data s.data

def listInfixCheck (sub : List Char) : List Char → Bool
  | [] => listPrefixOf sub []
  | c :: rest => listPrefixOf sub (c :: rest) || listInfixCheck sub rest

/-- `String.prototype.includes`: substring containment. -/
def strIncludes (s sub : String) : Bool := listInfixCheck sub.data s.data

def replaceFirstL (target repl : List Char) : List Char → List Char
  | [] => if target.isEmpty then repl else []
  | c :: rest =>
    if listPrefixOf target (c :: rest) then repl ++ (c :: rest).drop target.length
    else c :: replaceFirstL target repl rest

/-- `String.prototype.replace` with a plain-string search value:
replaces only the first occurrence. -/
def replaceFirst (s target repl : String) : String :=
  String.mk (replaceFirstL target.data repl.data s.data)

/-- The caller's home directory (`os.homedir()`), fixed for the process. -/
def homedir : String := "/home/user"

/-- `s.replace(/^~/, homedir())`: expand a leading tilde. -/
def expandHome (s : String) : String :=
  match s.data with
  | '~' :: rest => String.mk (homedir.data ++ rest)
  | _ => s

/-- Node `path.basename`: final path component, ignoring trailing slashes. -/
def basename (p : String) : String :=
  let rev := p.data.reverse
  let rev2 := rev.dropWhile (fun c => c == '/')
  String.mk ((rev2.takeWhile (fun c => !(c == '/'))).reverse)

/-- `s.replace(/\/$/, "")`: drop a single trailing slash. -/
def stripOneTrailingSlash (s : String) : String :=
  match s.data.reverse with
  | '/' :: rest => String.mk rest.reverse
  | _ => s

/-! ## Regular expressions

A small executable engine for the JavaScript regex subset used by the
source.  `compileRegex` plays the role of `new RegExp` (returning `none`
on a syntax error) and `regexTest` the role of `RegExp.prototype.test`
(unanchored search), with the case-insensitivity flag passed explicitly.
-/

inductive ClsItem where
  | single : Char → ClsItem
  | range : Char → Char → ClsItem
  | space : ClsItem
  | notSpace : ClsItem
  | digit : ClsItem
  | notDigit : ClsItem
  | word : ClsItem
  | notWord : ClsItem
deriving DecidableEq

inductive RegexAst where
  | eps : RegexAst
  | chr : Char → RegexAst
  | anyCh : RegexAst
  | cls : Bool → List ClsItem → RegexAst
  | seqR : RegexAst → RegexAst → RegexAst
  | altR : RegexAst → RegexAst → RegexAst
  | starR : RegexAst → RegexAst
  | wordB : RegexAst
  | nwordB : RegexAst
  | negAhead : RegexAst → RegexAst
  | posAhead : RegexAst → RegexAst
  | bolA : RegexAst
  | eolA : RegexAst
deriving DecidableEq

def isSpaceCh (c : Char) : Bool :=
  c == ' ' || c == '\t' || c == '\n' || c == '\r' || c == '\x0b' || c == '\x0c'

def isDigitCh (c : Char) : Bool := '0' ≤ c && c ≤ '9'

def isWordCh (c : Char) : Bool :=
  ('a' ≤ c && c ≤ 'z') || ('A' ≤ c && c ≤ 'Z') || isDigitCh c || c == '_'

def clsItemMatch (ci : Bool) (it : ClsItem) (c : Char) : Bool :=
  match it with
  | ClsItem.single d => charEqCi ci c d
  | ClsItem.range a b =>
    (a ≤ c && c ≤ b) || (ci && (a ≤ lcChar c && lcChar c ≤ b))
  | ClsItem.space => isSpaceCh c
  | ClsItem.notSpace => !isSpaceCh c
  | ClsItem.digit => isDigitCh c
  | ClsItem.notDigit => !isDigitCh c
  | ClsItem.word => isWordCh c
  | ClsItem.notWord => !isWordCh c

def clsMatch (ci : Bool) (neg : Bool) (items : List ClsItem) (c : Char) : Bool :=
  let m := items.any (fun it => clsItemMatch ci it c)
  if neg then !m else m

/-! ### Parser -/

/-- Parse one class endpoint: an escape or a plain character.
`Sum.inl` is a predefined class (not usable as a range endpoint). -/
def parseClsEnd : List Char → Option ((ClsItem ⊕ Char) × List Char)
  | '\\' :: e :: rest =>
    if e == 's' then some (Sum.inl ClsItem.space, rest)
    else if e == 'S' then some (Sum.inl ClsItem.notSpace, rest)
    else if e == 'd' then some (Sum.inl ClsItem.digit, rest)
    else if e == 'D' then some (Sum.inl ClsItem.notDigit, rest)
    else if e == 'w' then some (Sum.inl ClsItem.word, rest)
    else if e == 'W' then some (Sum.inl ClsItem.notWord, rest)
    else if e == 'b' then some (Sum.inr '\x08', rest)
    else if e == 'n' then some (Sum.inr '\n', rest)
    else if e == 't' then some (Sum.inr '\t', rest)
    else if e == 'r' then some (Sum.inr '\r', rest)
    else if e == 'f' then some (Sum.inr '\x0c', rest)
    else if e == 'v' then some (Sum.inr '\x0b', rest)
    else some (Sum.inr e, rest)
  | '\\' :: [] => none
  | c :: rest => some (Sum.inr c, rest)
  | [] => none

/-- Parse the items of a character class up to the closing `]`.
Running past the end of the input (unterminated class) is a syntax error. -/
def parseClsItems : Nat → List Char → Option (List ClsItem × List Char)
  | 0, _ => none
  | _ + 1, [] => none
  | _ + 1, ']' :: rest => some ([], rest)
  | fuel + 1, cs =>
    match parseClsEnd cs with
    | none => none
    | some (Sum.inl preset, rest2) =>
      (parseClsItems fuel rest2).map (fun pr => (preset :: pr.1, pr.2))
    | some (Sum.inr c0, rest2) =>
      match rest2 with
      | '-' :: ']' :: rest3 =>
        (parseClsItems fuel ('-' :: ']' :: rest3)).map (fun pr => (ClsItem.single c0 :: pr.1, pr.2))
      | '-' :: d :: rest3 =>
        match parseClsEnd (d :: rest3) with
        | some (Sum.inr c1, rest4) =>
          (parseClsItems fuel rest4).map (fun pr => (ClsItem.range c0 c1 :: pr.1, pr.2))
        | _ => none
      | _ =>
        (parseClsItems fuel rest2).map (fun pr => (ClsItem.single c0 :: pr.1, pr.2))

/-- Consume the optional lazy-quantifier marker after `*`, `+` or `?`. -/
def dropLazy : List Char → List Char
  | '?' :: r => r
  | r => r

/-- Expect the closing parenthesis of a group and wrap the inner ast. -/
def closeGroup (res : Option (RegexAst × List Char)) (f : RegexAst → RegexAst) :
    Option (RegexAst × List Char) :=
  match res with
  | some (a, ')' :: rest) => some (f a, rest)
  | _ => none

/-- Recursive-descent regex parser.  `mode`: 0 = alternation, 1 = sequence,
2 = quantified atom, 3 = atom.  Fuel decreases on every call, making the
recursion structural; `compileRegex` supplies ample fuel. -/
def parseR : Nat → Nat → List Char → Option (RegexAst × List Char)
  | 0, _, _ => none
  | fuel + 1, mode, cs =>
    if mode == 0 then
      match parseR fuel 1 cs with
      | none => none
      | some (a, rest) =>
        match rest with
        | '|' :: r2 =>
          match parseR fuel 0 r2 with
          | none => none
          | some (b, rest3) => some (RegexAst.altR a b, rest3)
        | _ => some (a, rest)
    else if mode == 1 then
      match cs with
      | [] => some (RegexAst.eps, [])
      | c :: _ =>
        if c == '|' || c == ')' then some (RegexAst.eps, cs)
        else
          match parseR fuel 2 cs with
          | none => none
          | some (a, rest) =>
            match parseR fuel 1 rest with
            | none => none
            | some (b, rest2) => some (RegexAst.seqR a b, rest2)
    else if mode == 2 then
      match parseR fuel 3 cs with
      | none => none
      | some (a, rest) =>
        match rest with
        | '*' :: r2 => some (RegexAst.starR a, dropLazy r2)
        | '+' :: r2 => some (RegexAst.seqR a (RegexAst.starR a), dropLazy r2)
        | '?' :: r2 => some (RegexAst.altR a RegexAst.eps, dropLazy r2)
        | _ => some (a, rest)
    else
      match cs with
      | [] => none
      | '(' :: rest =>
        match rest with
        | '?' :: ':' :: r2 => closeGroup (parseR fuel 0 r2) id
        | '?' :: '!' :: r2 => closeGroup (parseR fuel 0 r2) RegexAst.negAhead
        | '?' :: '=' :: r2 => closeGroup (parseR fuel 0 r2) RegexAst.posAhead
        | '?' :: _ => none
        | _ => closeGroup (parseR fuel 0 rest) id
      | ')' :: _ => none
      | '[' :: '^' :: r2 =>
        (parseClsItems (r2.length + 1) r2).map (fun pr => (RegexAst.cls true pr.1, pr.2))
      | '[' :: rest =>
        (parseClsItems (rest.length + 1) rest).map (fun pr => (RegexAst.cls false pr.1, pr.2))
      | '\\' :: [] => none
      | '\\' :: e :: r2 =>
        if e == 's' then some (RegexAst.cls false [ClsItem.space], r2)
        else if e == 'S' then some (RegexAst.cls false [ClsItem.notSpace], r2)
        else if e == 'd' then some (RegexAst.cls false [ClsItem.digit], r2)
        else if e == 'D' then some (RegexAst.cls false [ClsItem.notDigit], r2)
        else if e == 'w' then some (RegexAst.cls false [ClsItem.word], r2)
        else if e == 'W' then some (RegexAst.cls false [ClsItem.notWord], r2)
        else if e == 'b' then some (RegexAst.wordB, r2)
        else if e == 'B' then some (RegexAst.nwordB, r2)
        else if e == 'n' then some (RegexAst.chr '\n', r2)
        else if e == 't' then some (RegexAst.chr '\t', r2)
        else if e == 'r' then some (RegexAst.chr '\r', r2)
        else if e == 'f' then some (RegexAst.chr '\x0c', r2)
        else if e == 'v' then some (RegexAst.chr '\x0b', r2)
        else some (RegexAst.chr e, r2)
      | '^' :: rest => some (RegexAst.bolA, rest)
      | '$' :: rest => some (RegexAst.eolA, rest)
      | '.' :: rest => some (RegexAst.anyCh, rest)
      | '*' :: _ => none
      | '+' :: _ => none
      | '?' :: _ => none
      | c :: rest => some (RegexAst.chr c, rest)

/-- `new RegExp src`: `none` models a thrown `SyntaxError`. -/
def compileRegex (src : String) : Option RegexAst :=
  match parseR (6 * src.data.length + 20) 0 src.data with
  | some (r, []) => some r
  | _ => none

/-! ### Matcher -/

def sizeR : RegexAst → Nat
  | RegexAst.seqR a b => 1 + sizeR a + sizeR b
  | RegexAst.altR a b => 1 + sizeR a + sizeR b
  | RegexAst.starR a => 1 + sizeR a
  | RegexAst.negAhead a => 1 + sizeR a
  | RegexAst.posAhead a => 1 + sizeR a
  | _ => 1

def isWordOpt : Option Char → Bool
  | some c => isWordCh c
  | none => false

def headOpt : List Char → Option Char
  | [] => none
  | c :: _ => some c

/-- Backtracking matcher: all states `(previous char, remaining input)`
reachable by matching `r` at the current position.  `prev` carries the
character before the position, for word boundaries and `^`. -/
def matchRe : Nat → Bool → RegexAst → Option Char → List Char →
    List (Option Char × List Char)
  | 0, _, _, _, _ => []
  | fuel + 1, ci, r, prev, s =>
    match r with
    | RegexAst.eps => [(prev, s)]
    | RegexAst.chr c =>
      match s with
      | c' :: rest => if charEqCi ci c' c then [(some c', rest)] else []
      | [] => []
    | RegexAst.anyCh =>
      match s with
      | c' :: rest => if c' == '\n' || c' == '\r' then [] else [(some c', rest)]
      | [] => []
    | RegexAst.cls neg items =>
      match s with
      | c' :: rest => if clsMatch ci neg items c' then [(some c', rest)] else []
      | [] => []
    | RegexAst.seqR a b =>
      (matchRe fuel ci a prev s).flatMap (fun st => matchRe fuel ci b st.1 st.2)
    | RegexAst.altR a b => matchRe fuel ci a prev s ++ matchRe fuel ci b prev s
    | RegexAst.starR a =>
      (prev, s) :: (matchRe fuel ci a prev s).flatMap (fun st =>
        if st.2.length < s.length then matchRe fuel ci (RegexAst.starR a) st.1 st.2 else [])
    | RegexAst.wordB =>
      if isWordOpt prev == isWordOpt (headOpt s) then [] else [(prev, s)]
    | RegexAst.nwordB =>
      if isWordOpt prev == isWordOpt (headOpt s) then [(prev, s)] else []
    | RegexAst.negAhead a =>
      if (matchRe fuel ci a prev s).isEmpty then [(prev, s)] else []
    | RegexAst.posAhead a =>
      if (matchRe fuel ci a prev s).isEmpty then [] else [(prev, s)]
    | RegexAst.bolA => if prev == none then [(prev, s)] else []
    | RegexAst.eolA => if s.isEmpty then [(prev, s)] else []

def matchFuel (r : RegexAst) (s : List Char) : Nat :=
  (sizeR r + 2) * (s.length + 2) + 2

/-- Try a match at each start position, left to right. -/
def searchFrom (ci : Bool) (r : RegexAst) : Option Char → List Char → Bool
  | prev, [] => !(matchRe (matchFuel r []) ci r prev []).isEmpty
  | prev, c :: rest =>
    if (matchRe (matchFuel r (c :: rest)) ci r prev (c :: rest)).isEmpty then
      searchFrom ci r (some c) rest
    else true

/-- `RegExp.prototype.test`: unanchored search for a match. -/
def regexTest (r : RegexAst) (ci : Bool) (s : String) : Bool :=
  searchFrom ci r none s.data

/-! ## Glob pattern utilities (`src/matchers/patterns.ts`) -/

/-- `isGlobPattern`: a specifier is a glob iff it contains `*`, `?` or `[`. -/
def isGlobPattern (pattern : String) : Bool :=
  pattern.data.contains '*' || pattern.data.contains '?' || pattern.data.contains '['

/-- The characters escaped both by `globToRegex` and by `matchGlob`
(the regex class `[.+^$\x7b\x7d()|[\]\\]` in the source). -/
def regexEscSet1 : List Char :=
  ['.', '+', '^', '$', '{', '}', '(', ')', '|', '[', ']', '\\']

/-- `globToRegex`: glob → regex source for searching inside a command
string; `*`/`?` never cross whitespace or `/`. -/
def globToRegex (globPattern : String) : String :=
  String.mk (globPattern.data.flatMap (fun c =>
    if c == '*' then "[^\\s/]*".data
    else if c == '?' then "[^\\s/]".data
    else if regexEscSet1.contains c then ['\\', c]
    else [c]))

/-- The regex source built inside `matchGlob`: lower-case the pattern,
escape the metacharacters, then map `*` to `.*` and `?` to `.`. -/
def matchGlobSrc (pattern : String) : String :=
  String.mk ((lcString pattern).data.flatMap (fun c =>
    if regexEscSet1.contains c then ['\\', c]
    else if c == '*' then ['.', '*']
    else if c == '?' then ['.']
    else [c]))

/-- `matchGlob`: anchored, case-insensitive glob match of a whole string. -/
def matchGlob (str pattern : String) : Bool :=
  match compileRegex ("^" ++ matchGlobSrc pattern ++ "$") with
  | none => false
  | some r => regexTest r true (lcString str)

/-- `matchPath`: match a file path against a literal or glob specifier. -/
def matchPath (filePath pattern : String) : Bool :=
  let expandedPattern := expandHome pattern
  let normalized := expandHome filePath
  if isGlobPattern pattern then
    let fileBasename := basename normalized
    if matchGlob fileBasename expandedPattern || matchGlob fileBasename pattern then true
    else if matchGlob normalized expandedPattern then true
    else false
  else
    if strStartsWith normalized expandedPattern ||
        normalized == stripOneTrailingSlash expandedPattern then true
    else false

/-! ## Operation templates (`src/matchers/patterns.ts`) -/

def WRITE_PATTERNS : List (String × String) :=
  [(">\\s*{path}", "write"),
   ("\\btee\\s+(?!.*-a).*{path}", "write")]

def APPEND_PATTERNS : List (String × String) :=
  [(">>\\s*{path}", "append"),
   ("\\btee\\s+-a\\s+.*{path}", "append"),
   ("\\btee\\s+.*-a.*{path}", "append")]

def EDIT_PATTERNS : List (String × String) :=
  [("\\bsed\\s+-i.*{path}", "edit"),
   ("\\bperl\\s+-[^\\s]*i.*{path}", "edit"),
   ("\\bawk\\s+-i\\s+inplace.*{path}", "edit")]

def MOVE_COPY_PATTERNS : List (String × String) :=
  [("\\bmv\\s+.*\\s+{path}", "move"),
   ("\\bcp\\s+.*\\s+{path}", "copy")]

def DELETE_PATTERNS : List (String × String) :=
  [("\\brm\\s+.*{path}", "delete"),
   ("\\bunlink\\s+.*{path}", "delete"),
   ("\\brmdir\\s+.*{path}", "delete"),
   ("\\bshred\\s+.*{path}", "delete")]

def PERMISSION_PATTERNS : List (String × String) :=
  [("\\bchmod\\s+.*{path}", "chmod"),
   ("\\bchown\\s+.*{path}", "chown"),
   ("\\bchgrp\\s+.*{path}", "chgrp")]

def TRUNCATE_PATTERNS : List (String × String) :=
  [("\\btruncate\\s+.*{path}", "truncate"),
   (":\\s*>\\s*{path}", "truncate")]

/-- All modification templates, blocked on read-only paths. -/
def READ_ONLY_BLOCKED : List (String × String) :=
  WRITE_PATTERNS ++ APPEND_PATTERNS ++ EDIT_PATTERNS ++ MOVE_COPY_PATTERNS ++
    DELETE_PATTERNS ++ PERMISSION_PATTERNS ++ TRUNCATE_PATTERNS

/-- Delete-only templates, blocked on no-delete paths. -/
def NO_DELETE_BLOCKED : List (String × String) := DELETE_PATTERNS

/-! ## Verdicts and configuration -/

structure BashPattern where
  pattern : String
  reason : String
  ask : Option Bool := none
deriving DecidableEq

structure Config where
  bashToolPatterns : List BashPattern
  zeroAccessPaths : List String
  readOnlyPaths : List String
  noDeletePaths : List String
deriving DecidableEq

structure CheckResult where
  blocked : Bool
  reason : String
deriving DecidableEq

structure BashCheckResult where
  blocked : Bool
  reason : String
  wasAskPattern : Option Bool := none
deriving DecidableEq

/-- The escape set of `checkPathPatterns` (`[.*+?^$\x7b\x7d()|[\]\\]`):
`regexEscSet1` plus the quantifier characters. -/
def regexEscSet2 : List Char :=
  ['.', '*', '+', '?', '^', '$', '{', '}', '(', ')', '|', '[', ']', '\\']

def escapeRegex (s : String) : String :=
  String.mk (s.data.flatMap (fun c =>
    if regexEscSet2.contains c then ['\\', c] else [c]))

/-- Glob branch of `checkPathPatterns`: for each template, drop the
placeholder to get a command fragment; empty fragments are skipped, and a
regex that fails to compile is skipped (the `catch` branch). -/
def checkGlobTemplates (command globRegex path pathType : String) :
    List (String × String) → CheckResult
  | [] => ⟨false, ""⟩
  | (patternTemplate, operation) :: rest =>
    let cmdFragment := replaceFirst patternTemplate "{path}" ""
    if cmdFragment == "" then checkGlobTemplates command globRegex path pathType rest
    else
      match compileRegex (cmdFragment ++ globRegex) with
      | none => checkGlobTemplates command globRegex path pathType rest
      | some r =>
        if regexTest r true command then
          ⟨true, "Blocked: " ++ operation ++ " operation on " ++ pathType ++ " " ++ path⟩
        else checkGlobTemplates command globRegex path pathType rest

/-- Literal branch of `checkPathPatterns`: substitute the escaped expanded
and original path into each template and test the command against both
(case-sensitively); a compile failure of either regex skips the template. -/
def checkLiteralTemplates (command escapedExpanded escapedOriginal path pathType : String) :
    List (String × String) → CheckResult
  | [] => ⟨false, ""⟩
  | (patternTemplate, operation) :: rest =>
    let patternExpanded := replaceFirst patternTemplate "{path}" escapedExpanded
    let patternOriginal := replaceFirst patternTemplate "{path}" escapedOriginal
    match compileRegex patternExpanded, compileRegex patternOriginal with
    | some r1, some r2 =>
      if regexTest r1 false command || regexTest r2 false command then
        ⟨true, "Blocked: " ++ operation ++ " operation on " ++ pathType ++ " " ++ path⟩
      else checkLiteralTemplates command escapedExpanded escapedOriginal path pathType rest
    | _, _ => checkLiteralTemplates command escapedExpanded escapedOriginal path pathType rest

/-- `checkPathPatterns`: does the command perform one of the listed
operations on the given path specifier? -/
def checkPathPatterns (command path : String) (patterns : List (String × String))
    (pathType : String) : CheckResult :=
  if isGlobPattern path then
    checkGlobTemplates command (globToRegex path) path pathType patterns
  else
    let expanded := expandHome path
    checkLiteralTemplates command (escapeRegex expanded) (escapeRegex path) path pathType patterns

/-! ## Bash command checker (`src/matchers/bash.ts`) -/

/-- Tier 1 loop: explicit command patterns from the configuration;
an invalid regex is skipped (the `catch` branch). -/
def bashToolLoop (command : String) : List BashPattern → Option BashCheckResult
  | [] => none
  | bp :: rest =>
    match compileRegex bp.pattern with
    | some r =>
      if regexTest r true command then
        some ⟨true, "Blocked: " ++ bp.reason, some (bp.ask == some true)⟩
      else bashToolLoop command rest
    | none => bashToolLoop command rest

/-- Tier 2 loop: any access to a zero-access path; globs are searched via
`globToRegex`, literals via substring containment. -/
def zeroAccessLoop (command : String) : List String → Option BashCheckResult
  | [] => none
  | zeroPath :: rest =>
    if isGlobPattern zeroPath then
      match compileRegex (globToRegex zeroPath) with
      | some r =>
        if regexTest r true command then
          some ⟨true, "Blocked: zero-access pattern " ++ zeroPath ++ " (no operations allowed)", none⟩
        else zeroAccessLoop command rest
      | none => zeroAccessLoop command rest
    else
      if strIncludes command (expandHome zeroPath) || strIncludes command zeroPath then
        some ⟨true, "Blocked: zero-access path " ++ zeroPath ++ " (no operations allowed)", none⟩
      else zeroAccessLoop command rest

/-- Tier 3 loop: modifications of read-only paths. -/
def readOnlyLoop (command : String) : List String → Option BashCheckResult
  | [] => none
  | readonlyPath :: rest =>
    let result := checkPathPatterns command readonlyPath READ_ONLY_BLOCKED "read-only path"
    if result.blocked then some ⟨result.blocked, result.reason, none⟩
    else readOnlyLoop command rest

/-- Tier 4 loop: deletions of no-delete paths. -/
def noDeleteLoop (command : String) : List String → Option BashCheckResult
  | [] => none
  | noDeletePath :: rest =>
    let result := checkPathPatterns command noDeletePath NO_DELETE_BLOCKED "no-delete path"
    if result.blocked then some ⟨result.blocked, result.reason, none⟩
    else noDeleteLoop command rest

/-- `checkBashCommand`: the four tiers in order; the first match returns. -/
def checkBashCommand (command : String) (config : Config) : BashCheckResult :=
  match bashToolLoop command config.bashToolPatterns with
  | some res => res
  | none =>
    match zeroAccessLoop command config.zeroAccessPaths with
    | some res => res
    | none =>
      match readOnlyLoop command config.readOnlyPaths with
      | some res => res
      | none =>
        match noDeleteLoop command config.noDeletePaths with
        | some res => res
        | none => ⟨false, "", none⟩

/-! ## File path checker (`src/matchers/file.ts`) -/

def zeroAccessFileLoop (filePath : String) : List String → Option CheckResult
  | [] => none
  | zeroPath :: rest =>
    if matchPath filePath zeroPath then
      some ⟨true, "zero-access path " ++ zeroPath ++ " (no operations allowed)"⟩
    else zeroAccessFileLoop filePath rest

def readOnlyFileLoop (filePath : String) : List String → Option CheckResult
  | [] => none
  | readonlyPath :: rest =>
    if matchPath filePath readonlyPath then
      some ⟨true, "read-only path " ++ readonlyPath⟩
    else readOnlyFileLoop filePath rest

/-- `checkFilePath`: write/edit surface — zero-access first, then read-only. -/
def checkFilePath (filePath : String) (config : Config) : CheckResult :=
  match zeroAccessFileLoop filePath config.zeroAccessPaths with
  | some res => res
  | none =>
    match readOnlyFileLoop filePath config.readOnlyPaths with
    | some res => res
    | none => ⟨false, ""⟩

/-- `checkFilePathZeroAccessOnly`: read surface — zero-access tier only. -/
def checkFilePathZeroAccessOnly (filePath : String) (config : Config) : CheckResult :=
  match zeroAccessFileLoop filePath config.zeroAccessPaths with
  | some res => res
  | none => ⟨false, ""⟩

/-! ## Derived predicates used to state the claims -/

/-- A tier-1 entry matches the command: its regex compiles and finds the
command (case-insensitively). -/
def bashEntryMatches (command : String) (bp : BashPattern) : Bool :=
  match compileRegex bp.pattern with
  | some r => regexTest r true command
  | none => false

/-- A zero-access entry matches the command, exactly as tier 2 tests it. -/
def zeroEntryMatches (command zeroPath : String) : Bool :=
  if isGlobPattern zeroPath then
    match compileRegex (globToRegex zeroPath) with
    | some r => regexTest r true command
    | none => false
  else strIncludes command (expandHome zeroPath) || strIncludes command zeroPath

/-- Two tier-1 entries that differ at most in the advisory flag. -/
def askAgrees (a b : BashPattern) : Prop := a.pattern = b.pattern ∧ a.reason = b.reason

/-! ## Lemmas about the tier loops -/

lemma bashToolLoop_eq_find (command : String) (l : List BashPattern) :
    bashToolLoop command l = (l.find? (bashEntryMatches command)).map
      (fun bp => ⟨true, "Blocked: " ++ bp.reason, some (bp.ask == some true)⟩) := by
  induction l with
  | nil => rfl
  | cons bp rest ih =>
    simp only [bashToolLoop, List.find?]
    cases hc : compileRegex bp.pattern with
    | none => simp [bashEntryMatches, hc, ih]
    | some r =>
      cases ht : regexTest r true command with
      | false => simp [bashEntryMatches, hc, ht, ih]
      | true => simp [bashEntryMatches, hc, ht]

lemma bashToolLoop_skip (command : String) (bad : BashPattern)
    (hbad : compileRegex bad.pattern = none) (pre post : List BashPattern) :
    bashToolLoop command (pre ++ bad :: post) = bashToolLoop command (pre ++ post) := by
  induction pre with
  | nil => simp [bashToolLoop, hbad]
  | cons a rest ih =>
    simp only [List.cons_append, bashToolLoop, List.append_eq]
    rw [ih]

lemma bashToolLoop_blocked (command : String) (l : List BashPattern)
    (res : BashCheckResult) (h : bashToolLoop command l = some res) :
    res.blocked = true := by
  induction l with
  | nil => simp [bashToolLoop] at h
  | cons bp rest ih =>
    cases hc : compileRegex bp.pattern with
    | none =>
      simp only [bashToolLoop, hc] at h
      exact ih h
    | some r =>
      simp only [bashToolLoop, hc] at h
      by_cases ht : regexTest r true command = true
      · rw [if_pos ht] at h
        cases h
        rfl
      · rw [if_neg ht] at h
        exact ih h

lemma bashToolLoop_askInv (command : String) {l1 l2 : List BashPattern}
    (h : List.Forall₂ askAgrees l1 l2) :
    (bashToolLoop command l1 = none ∧ bashToolLoop command l2 = none) ∨
    (∃ r1 r2, bashToolLoop command l1 = some r1 ∧ bashToolLoop command l2 = some r2 ∧
      r1.blocked = r2.blocked ∧ r1.reason = r2.reason) := by
  induction h with
  | nil => exact Or.inl ⟨rfl, rfl⟩
  | @cons a b l1' l2' hab _ ih =>
    obtain ⟨hp, hr⟩ := hab
    cases hc : compileRegex b.pattern with
    | none =>
      simp only [bashToolLoop, hp, hc]
      exact ih
    | some r =>
      simp only [bashToolLoop, hp, hc]
      by_cases ht : regexTest r true command = true
      · rw [if_pos ht, if_pos ht]
        right
        exact ⟨_, _, rfl, rfl, rfl, by simp [hr]⟩
      · rw [if_neg ht, if_neg ht]
        exact ih

lemma listInfixCheck_nil (s : List Char) : listInfixCheck [] s = true := by
  induction s with
  | nil => rfl
  | cons c rest ih => simp [listInfixCheck, listPrefixOf]

lemma strIncludes_empty (s : String) : strIncludes s "" = true :=
  listInfixCheck_nil s.data

lemma matchPath_empty (p : String) : matchPath p "" = true := rfl

lemma zeroAccessLoop_empty_mem (command : String) (l : List String) (h : "" ∈ l) :
    ∃ res, zeroAccessLoop command l = some res ∧ res.blocked = true := by
  induction l with
  | nil => cases h
  | cons zp rest ih =>
    by_cases hz : zp = ""
    · subst hz
      refine ⟨⟨true, "Blocked: zero-access path " ++ "" ++ " (no operations allowed)", none⟩, ?_, rfl⟩
      simp only [zeroAccessLoop]
      rw [if_neg (by simp [isGlobPattern])]
      rw [if_pos (by simp [strIncludes_empty])]
    · have hr : "" ∈ rest := by
        rcases List.mem_cons.mp h with h1 | h1
        · exact absurd h1.symm hz
        · exact h1
      obtain ⟨res, hres, hb⟩ := ih hr
      simp only [zeroAccessLoop]
      by_cases hg : isGlobPattern zp = true
      · rw [if_pos hg]
        cases hc : compileRegex (globToRegex zp) with
        | none => exact ⟨res, hres, hb⟩
        | some r =>
          dsimp only
          by_cases ht : regexTest r true command = true
          · rw [if_pos ht]
            exact ⟨_, rfl, rfl⟩
          · rw [if_neg ht]
            exact ⟨res, hres, hb⟩
      · rw [if_neg hg]
        by_cases hs : (strIncludes command (expandHome zp) || strIncludes command zp) = true
        · rw [if_pos hs]
          exact ⟨_, rfl, rfl⟩
        · rw [if_neg hs]
          exact ⟨res, hres, hb⟩

lemma zeroAccessFileLoop_empty_mem (filePath : String) (l : List String) (h : "" ∈ l) :
    ∃ res, zeroAccessFileLoop filePath l = some res ∧ res.blocked = true := by
  induction l with
  | nil => cases h
  | cons zp rest ih =>
    by_cases hz : zp = ""
    · subst hz
      refine ⟨⟨true, "zero-access path " ++ "" ++ " (no operations allowed)"⟩, ?_, rfl⟩
      simp only [zeroAccessFileLoop]
      rw [if_pos (matchPath_empty filePath)]
    · have hr : "" ∈ rest := by
        rcases List.mem_cons.mp h with h1 | h1
        · exact absurd h1.symm hz
        · exact h1
      obtain ⟨res, hres, hb⟩ := ih hr
      simp only [zeroAccessFileLoop]
      by_cases hm : matchPath filePath zp = true
      · rw [if_pos hm]
        exact ⟨_, rfl, rfl⟩
      · rw [if_neg hm]
        exact ⟨res, hres, hb⟩

/-! ## The claims -/

/-- Claim C1: if a command matches some `bashToolPatterns` entry (the first
such entry being `bp`) and also matches some `zeroAccessPaths` entry, then
`checkBashCommand` blocks with the reason formatted from `bp`, not from the
zero-access tier: tier 1 is consulted first and its first match
short-circuits all later tiers. -/
theorem spec_c1 (command : String) (config : Config) (bp : BashPattern)
    (hfind : config.bashToolPatterns.find? (bashEntryMatches command) = some bp)
    (hzero : ∃ zp ∈ config.zeroAccessPaths, zeroEntryMatches command zp = true) :
    checkBashCommand command config =
      ⟨true, "Blocked: " ++ bp.reason, some (bp.ask == some true)⟩ := by
  unfold checkBashCommand
  rw [bashToolLoop_eq_find, hfind]
  rfl

/-- Witness for C1 at a concrete command and configuration where both the
command-pattern tier and the zero-access tier match. -/
theorem spec_c1_w :
    checkBashCommand "rm .env" ⟨[⟨"rm", "dangerous", none⟩], [".env"], [], []⟩ =
      ⟨true, "Blocked: dangerous", some false⟩ :=
  spec_c1 "rm .env" ⟨[⟨"rm", "dangerous", none⟩], [".env"], [], []⟩
    ⟨"rm", "dangerous", none⟩ (by decide) ⟨".env", by decide, by decide⟩

/-- Claim C2: with all four tiers empty, every query on every surface is
allowed: bash commands, write/edit path checks and read path checks all
return an unblocked verdict. -/
theorem spec_c2 (command filePath : String) :
    checkBashCommand command ⟨[], [], [], []⟩ = ⟨false, "", none⟩ ∧
    checkFilePath filePath ⟨[], [], [], []⟩ = ⟨false, ""⟩ ∧
    checkFilePathZeroAccessOnly filePath ⟨[], [], [], []⟩ = ⟨false, ""⟩ :=
  ⟨rfl, rfl, rfl⟩

/-- Claim C3: a `bashToolPatterns` entry whose regex does not compile is
skipped: evaluation proceeds exactly as if the entry were absent, so it
never blocks by itself and never prevents a later valid entry from
matching. -/
theorem spec_c3 (command : String) (pre post : List BashPattern) (bad : BashPattern)
    (z ro nd : List String) (hbad : compileRegex bad.pattern = none) :
    checkBashCommand command ⟨pre ++ bad :: post, z, ro, nd⟩ =
      checkBashCommand command ⟨pre ++ post, z, ro, nd⟩ := by
  unfold checkBashCommand
  rw [bashToolLoop_skip command bad hbad pre post]

/-- Witness for C3: the unparsable pattern `(` is skipped and the later
valid entry still blocks. -/
theorem spec_c3_w :
    checkBashCommand "rm -rf /" ⟨[⟨"(", "broken", none⟩, ⟨"rm", "no rm", none⟩], [], [], []⟩ =
      checkBashCommand "rm -rf /" ⟨[⟨"rm", "no rm", none⟩], [], [], []⟩ :=
  spec_c3 "rm -rf /" [] [⟨"rm", "no rm", none⟩] ⟨"(", "broken", none⟩ [] [] [] (by decide)

/-- Claim C4: with glob specifier `*.pem` in `zeroAccessPaths`, the path
surface blocks `/tmp/keys/server.pem` (basename matches the anchored,
case-insensitive glob regex) and does not block `/tmp/keys/server.pem.bak`. -/
theorem spec_c4 :
    matchPath "/tmp/keys/server.pem" "*.pem" = true ∧
    matchPath "/tmp/keys/server.pem.bak" "*.pem" = false ∧
    (checkFilePathZeroAccessOnly "/tmp/keys/server.pem" ⟨[], ["*.pem"], [], []⟩).blocked = true ∧
    (checkFilePathZeroAccessOnly "/tmp/keys/server.pem.bak" ⟨[], ["*.pem"], [], []⟩).blocked = false := by
  decide

/-- Claim C5: with literal `/etc/` in `readOnlyPaths`, the command
`echo x > /etc/hosts` is blocked with a reason naming the `write`
operation and the path, while `cat /etc/hosts` is not blocked. -/
theorem spec_c5 :
    checkBashCommand "echo x > /etc/hosts" ⟨[], [], ["/etc/"], []⟩ =
      ⟨true, "Blocked: write operation on read-only path /etc/", none⟩ ∧
    (checkBashCommand "cat /etc/hosts" ⟨[], [], ["/etc/"], []⟩).blocked = false := by
  decide

/-- Claim C6: with literal `LICENSE` in `noDeletePaths`, `rm LICENSE` is
blocked with a reason naming the `delete` operation, while the append
command `echo x >> LICENSE` is not blocked: the no-delete tier uses only
the delete template set. -/
theorem spec_c6 :
    checkBashCommand "rm LICENSE" ⟨[], [], [], ["LICENSE"]⟩ =
      ⟨true, "Blocked: delete operation on no-delete path LICENSE", none⟩ ∧
    (checkBashCommand "echo x >> LICENSE" ⟨[], [], [], ["LICENSE"]⟩).blocked = false := by
  decide

/-- Claim C7: the first matching `bashToolPatterns` entry blocks
immediately with its reason, and the advisory flag is irrelevant to the
verdict: two pattern lists that differ only in `ask` flags give verdicts
with the same `blocked` field and the same reason. -/
theorem spec_c7 (command : String) (l1 l2 : List BashPattern) (z ro nd : List String)
    (bp : BashPattern) (h : List.Forall₂ askAgrees l1 l2)
    (hfind : l1.find? (bashEntryMatches command) = some bp) :
    checkBashCommand command ⟨l1, z, ro, nd⟩ =
      ⟨true, "Blocked: " ++ bp.reason, some (bp.ask == some true)⟩ ∧
    (checkBashCommand command ⟨l1, z, ro, nd⟩).blocked =
      (checkBashCommand command ⟨l2, z, ro, nd⟩).blocked ∧
    (checkBashCommand command ⟨l1, z, ro, nd⟩).reason =
      (checkBashCommand command ⟨l2, z, ro, nd⟩).reason := by
  refine ⟨?_, ?_, ?_⟩
  · unfold checkBashCommand
    rw [bashToolLoop_eq_find, hfind]
    rfl
  all_goals
    rcases bashToolLoop_askInv command h with ⟨h1, h2⟩ | ⟨r1, r2, h1, h2, hbl, hre⟩
  · unfold checkBashCommand
    rw [h1, h2]
  · unfold checkBashCommand
    rw [h1, h2]
    exact hbl
  · unfold checkBashCommand
    rw [h1, h2]
  · unfold checkBashCommand
    rw [h1, h2]
    exact hre

/-- Witness for C7: an advisory (`ask := some true`) entry and the same
entry without the flag produce the same blocked flag and reason. -/
theorem spec_c7_w :
    checkBashCommand "sudo ls" ⟨[⟨"sudo", "admin", some true⟩], [], [], []⟩ =
      ⟨true, "Blocked: admin", some true⟩ ∧
    (checkBashCommand "sudo ls" ⟨[⟨"sudo", "admin", some true⟩], [], [], []⟩).blocked =
      (checkBashCommand "sudo ls" ⟨[⟨"sudo", "admin", none⟩], [], [], []⟩).blocked ∧
    (checkBashCommand "sudo ls" ⟨[⟨"sudo", "admin", some true⟩], [], [], []⟩).reason =
      (checkBashCommand "sudo ls" ⟨[⟨"sudo", "admin", none⟩], [], [], []⟩).reason :=
  spec_c7 "sudo ls" [⟨"sudo", "admin", some true⟩] [⟨"sudo", "admin", none⟩] [] [] []
    ⟨"sudo", "admin", some true⟩
    (List.Forall₂.cons ⟨rfl, rfl⟩ List.Forall₂.nil) (by decide)

/-- Claim C8: the path surfaces never consult the command-pattern or
no-delete tiers — `checkFilePath` depends only on `zeroAccessPaths` and
`readOnlyPaths`, and `checkFilePathZeroAccessOnly` only on
`zeroAccessPaths`. -/
theorem spec_c8 (filePath : String) (z ro : List String)
    (b1 b2 : List BashPattern) (nd1 nd2 : List String) (ro1 ro2 : List String) :
    checkFilePath filePath ⟨b1, z, ro, nd1⟩ = checkFilePath filePath ⟨b2, z, ro, nd2⟩ ∧
    checkFilePathZeroAccessOnly filePath ⟨b1, z, ro1, nd1⟩ =
      checkFilePathZeroAccessOnly filePath ⟨b2, z, ro2, nd2⟩ :=
  ⟨rfl, rfl⟩

/-- Claim C9: evaluation is deterministic — re-evaluating the same query
against the same configuration snapshot yields an identical verdict on
every surface; the embedded evaluator is a pure function of
`(query, config)`. -/
theorem spec_c9 (command filePath : String) (config : Config) :
    checkBashCommand command config = checkBashCommand command config ∧
    checkFilePath filePath config = checkFilePath filePath config ∧
    checkFilePathZeroAccessOnly filePath config = checkFilePathZeroAccessOnly filePath config :=
  ⟨rfl, rfl, rfl⟩

/-- Claim C10: the empty string is a universally matching literal
specifier: `matchPath` accepts every path against `""`, and a
configuration whose `zeroAccessPaths` contains `""` blocks every bash
command (substring containment of the empty string) and every path query. -/
theorem spec_c10 (filePath command : String) (config : Config)
    (h : "" ∈ config.zeroAccessPaths) :
    matchPath filePath "" = true ∧
    (checkBashCommand command config).blocked = true ∧
    (checkFilePath filePath config).blocked = true ∧
    (checkFilePathZeroAccessOnly filePath config).blocked = true := by
  refine ⟨matchPath_empty filePath, ?_, ?_, ?_⟩
  · unfold checkBashCommand
    cases h1 : bashToolLoop command config.bashToolPatterns with
    | some res => exact bashToolLoop_blocked command config.bashToolPatterns res h1
    | none =>
      obtain ⟨res, hres, hb⟩ := zeroAccessLoop_empty_mem command config.zeroAccessPaths h
      rw [hres]
      exact hb
  · unfold checkFilePath
    obtain ⟨res, hres, hb⟩ := zeroAccessFileLoop_empty_mem filePath config.zeroAccessPaths h
    rw [hres]
    exact hb
  · unfold checkFilePathZeroAccessOnly
    obtain ⟨res, hres, hb⟩ := zeroAccessFileLoop_empty_mem filePath config.zeroAccessPaths h
    rw [hres]
    exact hb

/-- Witness for C10: a configuration whose zero-access tier holds the
empty string blocks a concrete command and a concrete path. -/
theorem spec_c10_w :
    matchPath "/some/file" "" = true ∧
    (checkBashCommand "ls" ⟨[], [""], [], []⟩).blocked = true ∧
    (checkFilePath "/some/file" ⟨[], [""], [], []⟩).blocked = true ∧
    (checkFilePathZeroAccessOnly "/some/file" ⟨[], [""], [], []⟩).blocked = true :=
  spec_c10 "/some/file" "ls" ⟨[], [""], [], []⟩ (by decide)

end DamageControl
